import Mathlib

/-!
Verification of the tiktok-whisper ETL pipeline orchestration.

Shallow embedding of the Temporal-based ETL workers of the repository:

* `worker.py` — `TranscriptionETLWorkflow.run` plus its activities
  (`download_from_youtube`, `convert_audio_format`,
  `transcribe_with_faster_whisper`, `upload_to_minio`);
* `simple_worker.py` — the second `TranscriptionETLWorkflow.run` that uses the
  activities of `activities.py` (`download_video_activity`,
  `convert_to_audio_activity`, `cleanup_temp_files_activity`);
* `scripts/python/convertTo16KHz.py` — the standalone batch converter.

Activities are modelled as oracles giving each step's outcome: the workflow
code is embedded as a pure Lean function of the request and of those outcomes,
returning the run's observable record (which steps were invoked, the artifact
paths produced, which files were cleaned, and the final result).
-/

set_option maxHeartbeats 1000000

namespace V2T

/-- The four business steps of the ETL pipeline. -/
inductive Step where
  | download
  | convert
  | transcribe
  | upload
deriving DecidableEq, Repr

/-- Failure taxonomy of the spec (section 7); the oracle classifies each
activity failure with one of these kinds. -/
inductive FailKind where
  | sourceUnavailable
  | unsupportedFormat
  | toolFailure
  | modelFailure
  | timeout
  | storeFailure
  | retriesExhausted
deriving DecidableEq, Repr

/-- Whether `pat` is an initial segment of `cs`. -/
def startsWith : List Char → List Char → Bool
  | _, [] => true
  | [], _ :: _ => false
  | c :: cs, p :: ps => c == p && startsWith cs ps

/-- Whether `pat` occurs contiguously somewhere in the list. -/
def occursIn (pat : List Char) : List Char → Bool
  | [] => pat.isEmpty
  | c :: cs => startsWith (c :: cs) pat || occursIn pat cs

/-- Python's `pat in s` substring test. -/
def containsSubstr (s pat : String) : Bool :=
  occursIn pat.data s.data

/-- Embeds `worker.py` line 294: `"youtube.com" in source_url or "youtu.be" in source_url`. -/
def isYoutubeUrl (source_url : String) : Bool :=
  containsSubstr source_url "youtube.com" || containsSubstr source_url "youtu.be"

/-! ## Oracle outcomes for the `worker.py` activities -/

/-- Success payload of `download_from_youtube` (`worker.py` lines 98-104). -/
structure DownloadPayload where
  file_path : String
  title : String
  duration : Int
  uploader : String
deriving DecidableEq, Repr

/-- Outcome of `download_from_youtube`: the activity catches every exception
and returns either the success dict or `{"status": "error", "error": ...}`
(`worker.py` lines 92-110); the kind classifies the caught exception. -/
inductive DownloadOutcome where
  | ok (p : DownloadPayload)
  | err (kind : FailKind) (detail : String)
deriving DecidableEq, Repr

/-- Outcome of `convert_audio_format`: the activity never raises to the
workflow; it returns a status dict (`worker.py` lines 138-150). The error
payload carries the original input path. -/
inductive ConvertOutcome where
  | ok (file_path : String) (format : String) (sample_rate : Nat)
  | err (detail : String) (file_path : String)
deriving DecidableEq, Repr

/-- Success payload of `transcribe_with_faster_whisper` (`worker.py` lines
216-231), restricted to the fields the workflow reads. -/
structure TranscriptionPayload where
  text : String
  language : String
  duration : Int
deriving DecidableEq, Repr

/-- Outcome of `transcribe_with_faster_whisper`: on failure the activity
re-raises (`worker.py` line 241), so the exception propagates to the workflow. -/
inductive TranscribeOutcome where
  | ok (p : TranscriptionPayload)
  | raised (detail : String)
deriving DecidableEq, Repr

/-- Outcome of `upload_to_minio`: success dict with the url, or
`{"status": "error", ...}` without a url (`worker.py` lines 264-279). -/
inductive UploadOutcome where
  | ok (url : String) (size : Nat)
  | err (detail : String)
deriving DecidableEq, Repr

/-- The sequence of activity outcomes delivered to one run of
`TranscriptionETLWorkflow.run` in `worker.py` (each activity is invoked at
most once per run). -/
structure Oracle where
  download : DownloadOutcome
  convert : ConvertOutcome
  transcribe : TranscribeOutcome
  upload : UploadOutcome
deriving DecidableEq, Repr

/-- The pipeline request as read by `worker.py` lines 290, 323-324. -/
structure Request where
  source_url : String
  language : Option String
  model_size : String
deriving DecidableEq, Repr

/-- Final result of one `worker.py` workflow run: the download error dict
returned verbatim (line 301), the propagated transcription exception
(line 241 / 327), or the completed dict of lines 352-359. -/
inductive WResult where
  | downloadError (kind : FailKind) (detail : String)
  | exception (detail : String)
  | completed (workflow_id : String) (transcription_url : Option String)
      (duration : Int) (language : String)
deriving DecidableEq, Repr

/-- Observable record of one `worker.py` workflow run. `artifacts` lists the
file paths produced by successful Download/Convert steps (the artifacts the
spec says must be compensated); `cleaned` lists the paths the workflow itself
removed in its final loop (lines 348-350); `transcribeInput` is the
`file_path` handed to the transcription activity, when it was invoked. -/
structure RunRecord where
  invoked : List Step
  artifacts : List (Step × String)
  cleaned : List String
  transcribeInput : Option String
  result : WResult
deriving DecidableEq, Repr

/-- Embeds `worker.py` lines 320-359: transcribe, then store results and clean up
local files. `file_path` is the path after the convert stage. -/
def workerStage3 (wid : String) (o : Oracle) (inv : List Step)
    (arts : List (Step × String)) (file_path : String) : RunRecord :=
  match o.transcribe with
  | .raised d =>
      { invoked := inv ++ [.transcribe], artifacts := arts, cleaned := [],
        transcribeInput := some file_path, result := .exception d }
  | .ok p =>
      let result_path := "/tmp/" ++ wid ++ "_result.json"
      let url? : Option String :=
        match o.upload with
        | .ok url _ => some url
        | .err _ => none
      { invoked := inv ++ [.transcribe, .upload], artifacts := arts,
        cleaned := [file_path, result_path],
        transcribeInput := some file_path,
        result := .completed wid url? p.duration p.language }

/-- Embeds `worker.py` lines 308-318: the convert step. On a convert error the
workflow keeps the previous `file_path` and proceeds anyway (only a success
status updates `file_path`, line 317-318). -/
def workerStage2 (wid : String) (o : Oracle) (inv : List Step)
    (arts : List (Step × String)) (file_path : String) : RunRecord :=
  match o.convert with
  | .ok path _ _ =>
      workerStage3 wid o (inv ++ [.convert]) (arts ++ [(.convert, path)]) path
  | .err _ _ =>
      workerStage3 wid o (inv ++ [.convert]) arts file_path

/-- Embeds `TranscriptionETLWorkflow.run` of `worker.py` (lines 287-359), as a pure
function of the workflow id, the request and the activity outcomes. -/
def runWorker (wid : String) (req : Request) (o : Oracle) : RunRecord :=
  if isYoutubeUrl req.source_url then
    match o.download with
    | .err k d =>
        { invoked := [.download], artifacts := [], cleaned := [],
          transcribeInput := none, result := .downloadError k d }
    | .ok p =>
        workerStage2 wid o [.download] [(.download, p.file_path)] p.file_path
  else
    workerStage2 wid o [] [] req.source_url

/-- The `file_path` the `worker.py` workflow holds just before the convert
step: the downloaded file for a YouTube source, the source url itself
otherwise (lines 303-306). -/
def preConvertPath (req : Request) (o : Oracle) : String :=
  if isYoutubeUrl req.source_url then
    match o.download with
    | .ok p => p.file_path
    | .err _ _ => req.source_url
  else
    req.source_url

/-- Whether the run gets past the download stage: always, except for a
YouTube source whose download returned an error dict. -/
def downloadOk (req : Request) (o : Oracle) : Bool :=
  if isYoutubeUrl req.source_url then
    match o.download with
    | .ok _ => true
    | .err _ _ => false
  else
    true

/-! ## The `simple_worker.py` ETL workflow

`TranscriptionETLWorkflow.run` of `simple_worker.py` (lines 205-275). Its
activities (`activities.py`) raise on failure, so every failed step propagates
as an exception; the workflow's `try`/`finally` accumulates `temp_files` and,
when that list is nonempty, invokes `cleanup_temp_files_activity` over it
before the exception (or the success payload) leaves the workflow. -/

/-- Outcome of `download_video_activity` (`activities.py` lines 19-60):
success dict, or a raised exception. -/
inductive SDownloadOutcome where
  | ok (video_id : String) (title : String) (file_path : String) (duration : Int)
  | raised (detail : String)
deriving DecidableEq, Repr

/-- Outcome of `convert_to_audio_activity` (`activities.py` lines 63-87). -/
inductive SConvertOutcome where
  | ok (output_path : String) (size : Nat)
  | raised (detail : String)
deriving DecidableEq, Repr

/-- Outcome of `transcribe_with_faster_whisper` (`simple_worker.py` lines
65-120). -/
inductive STranscribeOutcome where
  | ok (text : String) (language : String) (provider : String) (duration : Int)
  | raised (detail : String)
deriving DecidableEq, Repr

/-- Outcome of `upload_to_minio_activity` (`simple_worker.py` lines 123-147):
the activity has no try/except, so any MinIO error raises. -/
inductive SUploadOutcome where
  | ok (url : String) (etag : String) (size : Nat)
  | raised (detail : String)
deriving DecidableEq, Repr

/-- Activity outcomes delivered to one `simple_worker.py` ETL run. -/
structure SOracle where
  download : SDownloadOutcome
  convert : SConvertOutcome
  transcribe : STranscribeOutcome
  upload : SUploadOutcome
deriving DecidableEq, Repr

/-- Final result of a `simple_worker.py` ETL run: the success dict of lines
260-266, or the exception propagated out of the failing step. -/
inductive SResult where
  | ok (video_id : String) (title : String) (transcription_url : String)
      (provider : String) (language : String)
  | failed (step : Step) (detail : String)
deriving DecidableEq, Repr

/-- Observable record of a `simple_worker.py` ETL run: the business steps
invoked in order, each invocation of the Cleanup activity with its argument
list, and the final result. -/
structure SRunRecord where
  invoked : List Step
  cleanupCalls : List (List String)
  result : SResult
deriving DecidableEq, Repr

/-- Embeds `TranscriptionETLWorkflow.run` of `simple_worker.py` (lines 209-275).
`temp_files` collects the download path then the converted audio path
(lines 227, 236); the `finally` block (lines 268-275) invokes
`cleanup_temp_files_activity` on `temp_files` when nonempty, on both the
success and every failure path. -/
def runSimpleETL (o : SOracle) : SRunRecord :=
  match o.download with
  | .raised d =>
      { invoked := [.download], cleanupCalls := [],
        result := .failed .download d }
  | .ok vid title fpath _ =>
      match o.convert with
      | .raised d =>
          { invoked := [.download, .convert], cleanupCalls := [[fpath]],
            result := .failed .convert d }
      | .ok apath _ =>
          match o.transcribe with
          | .raised d =>
              { invoked := [.download, .convert, .transcribe],
                cleanupCalls := [[fpath, apath]],
                result := .failed .transcribe d }
          | .ok _ lang prov _ =>
              match o.upload with
              | .raised d =>
                  { invoked := [.download, .convert, .transcribe, .upload],
                    cleanupCalls := [[fpath, apath]],
                    result := .failed .upload d }
              | .ok url _ _ =>
                  { invoked := [.download, .convert, .transcribe, .upload],
                    cleanupCalls := [[fpath, apath]],
                    result := .ok vid title url prov lang }

/-! ## Step Executor retry policy

Modelled from the spec: the Step Executor's retry loop (spec sections 4.2
and 7) is implemented by the Temporal runtime, not by code under `src/`
(`worker.py` only calls `workflow.execute_activity` with timeouts). Per the
spec: "only RetryableFailure outcomes are retried, using bounded exponential
backoff with a maximum attempt count; TerminalFailure outcomes abort
immediately without retry. Exhausting retries converts the last
RetryableFailure into a TerminalFailure with a distinct retries-exhausted
reason." Backoff delays do not affect which outcome is returned, so they are
elided. -/

/-- Tagged result of one activity invocation (spec, Data Model). -/
inductive StepOutcome (α : Type) where
  | success (payload : α)
  | retryableFailure (kind : FailKind) (detail : String)
  | terminalFailure (kind : FailKind) (detail : String)
deriving DecidableEq, Repr

/-- Modelled from the spec: the Step Executor's attempt loop. `act i` is the
outcome of attempt `i` (0-based), `fuel` the remaining attempt budget, `used`
the attempts performed so far. Returns the total number of attempts performed
and the final outcome. -/
def attemptLoop {α : Type} (act : Nat → StepOutcome α) :
    Nat → Nat → Nat × StepOutcome α
  | 0, used => (used, .terminalFailure .retriesExhausted "retries exhausted")
  | fuel + 1, used =>
    match act used with
    | .success p => (used + 1, .success p)
    | .terminalFailure k d => (used + 1, .terminalFailure k d)
    | .retryableFailure _ d =>
        if fuel = 0 then (used + 1, .terminalFailure .retriesExhausted d)
        else attemptLoop act fuel (used + 1)

/-- Modelled from the spec: execute one step with a maximum attempt count. -/
def executeStepWithRetry {α : Type} (act : Nat → StepOutcome α)
    (maxAttempts : Nat) : Nat × StepOutcome α :=
  attemptLoop act maxAttempts 0

/-! ## Upload idempotence: the object store

`upload_to_minio` (`worker.py` lines 259-279) PUTs the file's bytes under
`object_key` and returns `minio://{bucket}/{object_key}`. The store is
key-value: a PUT to an existing key overwrites it (MinIO/S3 semantics), so
the store is modelled as an association list in which `putObject` replaces
any previous entry for the key. -/

/-- S3/MinIO `put_object`: overwrite the key's entry. -/
def putObject (store : List (String × String)) (key content : String) :
    List (String × String) :=
  store.filter (fun kv => kv.1 != key) ++ [(key, content)]

/-- Embeds `upload_to_minio` (`worker.py` lines 259-273): PUT the local file's bytes
under `object_key`, return the new store and the permanent locator
`minio://{bucket}/{object_key}`. -/
def upload_to_minio (store : List (String × String))
    (bucket object_key content : String) :
    List (String × String) × String :=
  (putObject store object_key content, "minio://" ++ bucket ++ "/" ++ object_key)

/-- Number of artifacts stored under `key`. -/
def storeCount (store : List (String × String)) (key : String) : Nat :=
  (store.filter (fun kv => kv.1 == key)).length

/-! ## Converter output parameters (mono / 16 kHz) -/

/-- The audio parameters an ffmpeg invocation requests for its output:
codec, channel count (`-ac`), sample rate (`-ar`); `none` = flag absent,
leaving ffmpeg's default (which preserves the input's channel count). -/
structure FfmpegOutputArgs where
  acodec : Option String
  ac : Option Nat
  ar : Option Nat
deriving DecidableEq, Repr

/-- Embeds `convert_audio_format` (`worker.py` lines 113-132): output options
`acodec="pcm_s16le", ac=1, ar=sample_rate`; defaults are
`output_format="wav"`, `sample_rate=16000`. -/
def convert_audio_format_args (sample_rate : Nat) : FfmpegOutputArgs :=
  { acodec := some "pcm_s16le", ac := some 1, ar := some sample_rate }

/-- Default `sample_rate` parameter of `convert_audio_format`
(`worker.py` line 115); the workflow also passes 16000 explicitly
(line 313). -/
def convert_audio_format_default_sample_rate : Nat := 16000

/-- Embeds `convert_to_audio_activity` (`activities.py` lines 73-77): output options
`acodec='pcm_s16le' if wav else 'libmp3lame', ar='16000', ac=1`. -/
def convert_to_audio_activity_args (output_format : String) : FfmpegOutputArgs :=
  { acodec := some (if output_format = "wav" then "pcm_s16le" else "libmp3lame"),
    ac := some 1, ar := some 16000 }

/-- Embeds `convertTo16KHz.py` line 19: the exact command line the batch script runs
for one file: `['ffmpeg', '-i', audio_file, '-ar', '16000', output_file]`. -/
def convert_files_cmd (audio_file output_file : String) : List String :=
  ["ffmpeg", "-i", audio_file, "-ar", "16000", output_file]

/-- The value of the `-ac` flag in a command line, if present: the token
following the first `"-ac"`. -/
def cmdAc (cmd : List String) : Option Nat :=
  match cmd.dropWhile (fun t => t != "-ac") with
  | _ :: v :: _ => v.toNat?
  | _ => none

/-- ffmpeg semantics for the output channel count: the `-ac` value when the
flag is given, otherwise the input's channel count is preserved. -/
def ffmpegOutputChannels (ac : Option Nat) (inputChannels : Nat) : Nat :=
  ac.getD inputChannels

/-! ## Cleanup activity -/

/-- One iteration of the loop body of `cleanup_temp_files_activity`
(`activities.py` lines 93-105) on one path: remove the file if it exists;
any exception is caught and logged. The filesystem is the list of existing
file paths; `deleteFails p = true` means `os.remove(p)` raises. The `Bool`
reports whether the body completed without an exception. (Pruning of an
emptied parent directory is elided: it does not affect file membership.) -/
def cleanupOne (fsys : List String) (deleteFails : String → Bool)
    (path : String) : List String × Bool :=
  if path ∈ fsys then
    if deleteFails path then (fsys, false)
    else (fsys.filter (fun p => p != path), true)
  else (fsys, true)

/-- Embeds `cleanup_temp_files_activity` (`activities.py` lines 90-105): attempt
each path in order; exceptions are swallowed per-path, so the loop always
reaches every path and the activity never raises. Returns the final
filesystem and the ordered list of (path, succeeded) attempts. -/
def cleanup_temp_files (fsys : List String) (deleteFails : String → Bool) :
    List String → List String × List (String × Bool)
  | [] => (fsys, [])
  | p :: rest =>
    let step := cleanupOne fsys deleteFails p
    let next := cleanup_temp_files step.1 deleteFails rest
    (next.1, (p, step.2) :: next.2)

/-! ## `convert_audio_format` as a filesystem transformer -/

/-- The characters strictly before the last `'.'`, or `none` when no dot
occurs. -/
def beforeLastDot : List Char → Option (List Char)
  | [] => none
  | c :: cs =>
    match beforeLastDot cs with
    | some rest => some (c :: rest)
    | none => if c == '.' then some [] else none

/-- Python `input_path.rsplit(".", 1)[0]`: everything before the last dot,
or the whole string when there is no dot. -/
def rsplitStem (s : String) : String :=
  match beforeLastDot s.data with
  | some cs => ⟨cs⟩
  | none => s

/-- Embeds `worker.py` line 121: the converted output path,
`input_path.rsplit(".", 1)[0] + f"_converted.{output_format}"`. -/
def convertedOutputPath (input_path output_format : String) : String :=
  rsplitStem input_path ++ "_converted." ++ output_format

/-- Embeds `convert_audio_format` (`worker.py` lines 113-150) acting on the
filesystem (the list of existing paths). `ffmpegErr = some e` means the
ffmpeg run raised `e`: the except-branch returns the error dict carrying the
original `input_path` and the filesystem is untouched. On success ffmpeg
writes the output file (overwriting any previous one), then the original is
removed when the paths differ (lines 134-136). -/
def convert_audio_format_fs (fsys : List String) (ffmpegErr : Option String)
    (input_path output_format : String) (sample_rate : Nat) :
    List String × ConvertOutcome :=
  let output_path := convertedOutputPath input_path output_format
  match ffmpegErr with
  | some e => (fsys, .err e input_path)
  | none =>
    let fsys1 := output_path :: fsys.filter (fun p => p != output_path)
    let fsys2 :=
      if output_path != input_path then fsys1.filter (fun p => p != input_path)
      else fsys1
    (fsys2, .ok output_path output_format sample_rate)

/-! ## Transcription language argument -/

/-- Embeds `simple_worker.py` line 75 and `activities_only_worker.py` line 64:
`language=None if language == "auto" else language` — the language argument
passed to `model.transcribe`. -/
def faster_whisper_language_arg (language : String) : Option String :=
  if language = "auto" then none else some language

/-! ## Helper lemmas -/

/-- The retry loop on an always-retryable activity consumes its whole fuel. -/
theorem attemptLoop_all_retryable {α : Type} (act : Nat → StepOutcome α)
    (k : FailKind) (d : String) (h : ∀ i, act i = .retryableFailure k d) :
    ∀ fuel used, attemptLoop act (fuel + 1) used =
      (used + (fuel + 1), .terminalFailure .retriesExhausted d) := by
  intro fuel
  induction fuel with
  | zero => intro used; simp [attemptLoop, h used]
  | succ f ih =>
    intro used
    rw [attemptLoop, h used]
    simp only [Nat.succ_ne_zero, if_false]
    rw [ih (used + 1)]
    have harith : used + 1 + (f + 1) = used + (f + 1 + 1) := by omega
    rw [harith]

/-- The retry loop aborts at the first terminal outcome: if attempts
`used, …, used + j - 1` are retryable and attempt `used + j` is terminal,
the loop stops right after that attempt, whatever fuel remains. -/
theorem attemptLoop_terminal_at {α : Type} (act : Nat → StepOutcome α)
    (k' : FailKind) (d' : String) :
    ∀ j fuel used, j + 1 ≤ fuel →
      (∀ i, i < j → ∃ kr dr, act (used + i) = .retryableFailure kr dr) →
      act (used + j) = .terminalFailure k' d' →
      attemptLoop act fuel used = (used + j + 1, .terminalFailure k' d') := by
  intro j
  induction j with
  | zero =>
    intro fuel used hfuel _ hterm
    obtain ⟨f, rfl⟩ : ∃ f, fuel = f + 1 := ⟨fuel - 1, by omega⟩
    have hterm0 : act used = .terminalFailure k' d' := hterm
    rw [attemptLoop, hterm0]
  | succ m ih =>
    intro fuel used hfuel hpre hterm
    obtain ⟨f, rfl⟩ : ∃ f, fuel = f + 1 := ⟨fuel - 1, by omega⟩
    obtain ⟨kr, dr, hr⟩ := hpre 0 (Nat.succ_pos m)
    have hpre' : ∀ i, i < m →
        ∃ kr dr, act (used + 1 + i) = .retryableFailure kr dr := by
      intro i hi
      obtain ⟨kr2, dr2, h2⟩ := hpre (i + 1) (by omega)
      exact ⟨kr2, dr2, by
        rw [show used + 1 + i = used + (i + 1) from by omega]; exact h2⟩
    have hterm' : act (used + 1 + m) = .terminalFailure k' d' := by
      rw [show used + 1 + m = used + (m + 1) from by omega]
      exact hterm
    rw [attemptLoop, show act used = .retryableFailure kr dr from by
      simpa using hr]
    show (if f = 0 then
        (used + 1, StepOutcome.terminalFailure FailKind.retriesExhausted dr)
      else attemptLoop act f (used + 1)) =
      (used + (m + 1) + 1, StepOutcome.terminalFailure k' d')
    rw [if_neg (show ¬f = 0 by omega)]
    rw [ih f (used + 1) (by omega) hpre' hterm']
    have harith : used + 1 + m + 1 = used + (m + 1) + 1 := by omega
    rw [harith]

/-- Filtering a key out of a store is unchanged by a preceding `putObject`
of that key. -/
theorem filter_putObject (store : List (String × String)) (key content : String) :
    (putObject store key content).filter (fun kv => kv.1 != key) =
      store.filter (fun kv => kv.1 != key) := by
  simp [putObject, List.filter_append, List.filter_filter]

/-- A store from which `key` was filtered out holds no artifact under `key`. -/
theorem filter_eq_of_filter_ne (store : List (String × String)) (key : String) :
    (store.filter (fun kv => kv.1 != key)).filter (fun kv => kv.1 == key) = [] := by
  induction store with
  | nil => rfl
  | cons kv rest ih =>
    by_cases hk : kv.1 = key
    · rw [List.filter_cons, if_neg (by simp [hk])]
      exact ih
    · rw [List.filter_cons, if_pos (bne_iff_ne.mpr hk), List.filter_cons,
        if_neg (by simp [hk])]
      exact ih

/-- A store right after a `putObject` holds the key exactly once. -/
theorem storeCount_putObject (store : List (String × String))
    (key content : String) :
    storeCount (putObject store key content) key = 1 := by
  unfold storeCount putObject
  rw [List.filter_append, filter_eq_of_filter_ne]
  simp

/-- A repeated `putObject` of the same key and content is a no-op on the
store. -/
theorem putObject_idem (store : List (String × String)) (key content : String) :
    putObject (putObject store key content) key content =
      putObject store key content := by
  have h := filter_putObject store key content
  calc putObject (putObject store key content) key content
      = (putObject store key content).filter (fun kv => kv.1 != key) ++
          [(key, content)] := rfl
    _ = store.filter (fun kv => kv.1 != key) ++ [(key, content)] := by rw [h]
    _ = putObject store key content := rfl

/-- Every run of the `worker.py` workflow invokes the business steps in the
fixed pipeline order (its invocation list is an ordered sublist of
Download, Convert, Transcribe, Upload). -/
theorem runWorker_invoked_ordered (wid : String) (req : Request) (o : Oracle) :
    List.Sublist (runWorker wid req o).invoked
      [Step.download, Step.convert, Step.transcribe, Step.upload] := by
  unfold runWorker workerStage2 workerStage3
  by_cases hy : isYoutubeUrl req.source_url <;>
    simp only [hy, if_true, if_false, Bool.false_eq_true] <;>
    [cases o.download; skip] <;>
    cases o.convert <;> cases o.transcribe <;> simp

/-- The transcription url the `worker.py` workflow reads off the upload
outcome (`upload_result.get("url")`, line 355): present only on a success
dict. -/
def uploadUrl : UploadOutcome → Option String
  | .ok url _ => some url
  | .err _ => none

/-- A completed result out of the transcribe/upload stage takes its duration
and language from the transcription payload and its url from the upload
outcome. -/
theorem workerStage3_completed (wid : String) (o : Oracle) (inv : List Step)
    (arts : List (Step × String)) (fp : String) (url? : Option String)
    (dur : Int) (lang : String)
    (h : (workerStage3 wid o inv arts fp).result = .completed wid url? dur lang) :
    (∃ q, o.transcribe = .ok q ∧ dur = q.duration ∧ lang = q.language) ∧
    url? = uploadUrl o.upload := by
  unfold workerStage3 at h
  cases ht : o.transcribe with
  | raised d =>
    rw [ht] at h
    exact absurd h (by simp)
  | ok q =>
    rw [ht] at h
    simp only [WResult.completed.injEq] at h
    obtain ⟨-, h2, h3, h4⟩ := h
    refine ⟨⟨q, rfl, h3.symm, h4.symm⟩, ?_⟩
    cases hu : o.upload <;> rw [hu] at h2 <;> simp [uploadUrl, ← h2]

/-- Lifting of `workerStage3_completed` over the convert stage. -/
theorem workerStage2_completed (wid : String) (o : Oracle) (inv : List Step)
    (arts : List (Step × String)) (fp : String) (url? : Option String)
    (dur : Int) (lang : String)
    (h : (workerStage2 wid o inv arts fp).result = .completed wid url? dur lang) :
    (∃ q, o.transcribe = .ok q ∧ dur = q.duration ∧ lang = q.language) ∧
    url? = uploadUrl o.upload := by
  unfold workerStage2 at h
  cases hc : o.convert with
  | ok path fmt rate =>
    rw [hc] at h
    exact workerStage3_completed wid o _ _ _ _ _ _ h
  | err d p =>
    rw [hc] at h
    exact workerStage3_completed wid o _ _ _ _ _ _ h

/-! ## Concrete runs used by counterexamples and witnesses -/

/-- A YouTube request whose download and convert succeed but whose
transcription raises. -/
def reqYtC1 : Request := ⟨"https://youtu.be/abc", none, "large-v3"⟩

/-- Oracle for `reqYtC1`: Download and Convert succeed, Transcribe fails
terminally. -/
def oracleC1 : Oracle :=
  ⟨.ok ⟨"/tmp/v2t-downloads/abc.wav", "title", 100, "chan"⟩,
   .ok "/tmp/v2t-downloads/abc_converted.wav" "wav" 16000,
   .raised "model crashed",
   .err "unused"⟩

/-- A local-file request (no YouTube download step). -/
def reqLocalC2 : Request := ⟨"/data/a.mp4", none, "large-v3"⟩

/-- Oracle for `reqLocalC2`: Convert returns an error dict, everything else
succeeds. -/
def oracleConvertErr : Oracle :=
  ⟨.err .sourceUnavailable "unused",
   .err "ffmpeg failed" "/data/a.mp4",
   .ok ⟨"hello", "en", 12⟩,
   .ok "minio://v2t-transcriptions/results/wf-2/transcription.json" 42⟩

/-- A YouTube request whose download fails. -/
def reqYtC5 : Request := ⟨"https://youtu.be/gone", none, "large-v3"⟩

/-- Oracle for `reqYtC5`: Download fails with SourceUnavailable. -/
def oracleDownloadFail : Oracle :=
  ⟨.err .sourceUnavailable "HTTP Error 404",
   .ok "unused.wav" "wav" 16000, .raised "unused", .err "unused"⟩

/-- A local-file request for the all-success run. -/
def reqLocalC6 : Request := ⟨"/data/b.mp4", none, "large-v3"⟩

/-- Oracle for `reqLocalC6`: every step succeeds. -/
def oracleAllOk : Oracle :=
  ⟨.err .sourceUnavailable "unused",
   .ok "/data/b_converted.wav" "wav" 16000,
   .ok ⟨"hello", "en", 12⟩,
   .ok "minio://v2t-transcriptions/results/wf-4/transcription.json" 42⟩

/-- A `simple_worker.py` run where Download and Convert succeed and
Transcribe raises. -/
def soracleTranscribeFail : SOracle :=
  ⟨.ok "abc" "Title" "/tmp/v2t-download-x/vid.mp4" 100,
   .ok "/tmp/v2t-download-x/vid.wav" 5,
   .raised "model crashed",
   .ok "minio://v2t-transcriptions/etl/abc/transcription.txt" "etag" 9⟩

/-! ## Claims -/

/-- C3: a step configured for `N` max attempts whose activity returns
RetryableFailure on every attempt performs exactly `N` attempts and returns a
TerminalFailure of kind RetriesExhausted; and a TerminalFailure outcome on
any attempt `j` (after retryable outcomes on the attempts before it) aborts
immediately after attempt `j`, without further retries. -/
theorem step_retry_bound {α : Type} (maxAttempts : Nat)
    (act : Nat → StepOutcome α) (k : FailKind) (d : String)
    (hpos : 0 < maxAttempts) :
    ((∀ i, act i = .retryableFailure k d) →
      executeStepWithRetry act maxAttempts =
        (maxAttempts, .terminalFailure .retriesExhausted d)) ∧
    (∀ j k' d', j < maxAttempts →
      (∀ i, i < j → ∃ kr dr, act i = .retryableFailure kr dr) →
      act j = .terminalFailure k' d' →
      executeStepWithRetry act maxAttempts =
        (j + 1, .terminalFailure k' d')) := by
  constructor
  · intro h
    obtain ⟨m, rfl⟩ : ∃ m, maxAttempts = m + 1 := ⟨maxAttempts - 1, by omega⟩
    have := attemptLoop_all_retryable act k d h m 0
    simpa [executeStepWithRetry] using this
  · intro j k' d' hj hpre hterm
    have := attemptLoop_terminal_at act k' d' j maxAttempts 0 (by omega)
      (by simpa using hpre) (by simpa using hterm)
    simpa [executeStepWithRetry] using this

/-- An activity that is retryable on attempts 0 and 1 and fails terminally on
attempt 2. -/
def actTerminalAt2 : Nat → StepOutcome Unit := fun i =>
  if i < 2 then .retryableFailure .toolFailure "busy"
  else .terminalFailure .sourceUnavailable "gone"

/-- Witness for C3: three attempts on an always-retryable step stop after
exactly three attempts with kind RetriesExhausted; and with a budget of five
attempts, a terminal failure on attempt 2 (after two retryables) stops after
exactly three attempts, carrying the terminal kind. -/
theorem step_retry_bound_witness :
    executeStepWithRetry
        (fun _ => (StepOutcome.retryableFailure FailKind.toolFailure
          "ffmpeg exited 1" : StepOutcome Unit)) 3 =
      (3, .terminalFailure .retriesExhausted "ffmpeg exited 1") ∧
    executeStepWithRetry actTerminalAt2 5 =
      (3, .terminalFailure .sourceUnavailable "gone") :=
  ⟨(step_retry_bound 3 _ FailKind.toolFailure "ffmpeg exited 1"
      (by decide)).1 (fun _ => rfl),
    (step_retry_bound 5 actTerminalAt2 FailKind.toolFailure "busy"
        (by decide)).2 2 FailKind.sourceUnavailable "gone" (by decide)
      (fun i hi => ⟨.toolFailure, "busy", by simp [actTerminalAt2, hi]⟩)
      (by decide)⟩

/-- C4: uploading the same key with identical bytes twice returns the same
permanent locator both times, the second upload leaves the store unchanged
(a no-op success), and the store holds exactly one artifact under the key —
no duplicate is created. -/
theorem upload_idempotent (store : List (String × String))
    (bucket object_key content : String) :
    (upload_to_minio store bucket object_key content).2 =
      (upload_to_minio (upload_to_minio store bucket object_key content).1
        bucket object_key content).2 ∧
    (upload_to_minio (upload_to_minio store bucket object_key content).1
        bucket object_key content).1 =
      (upload_to_minio store bucket object_key content).1 ∧
    storeCount (upload_to_minio (upload_to_minio store bucket object_key content).1
        bucket object_key content).1 object_key = 1 := by
  refine ⟨rfl, putObject_idem store object_key content,
    storeCount_putObject (putObject store object_key content) object_key content⟩

/-- C7 counterexample: the batch converter `convertTo16KHz.py` passes no
channel flag to ffmpeg, so on a stereo (2-channel) input its successful
conversion yields a 2-channel output, not mono — the claim's "normalized to
mono" fails for this Convert implementation with no caller override. -/
theorem convert_files_not_mono :
    cmdAc (convert_files_cmd "ep1.m4a" "ep1.wav") = none ∧
    ffmpegOutputChannels (cmdAc (convert_files_cmd "ep1.m4a" "ep1.wav")) 2 = 2 ∧
    ffmpegOutputChannels (cmdAc (convert_files_cmd "ep1.m4a" "ep1.wav")) 2 ≠ 1 := by
  refine ⟨rfl, rfl, by decide⟩

/-- C7 amended: the two workflow converters request mono output at 16 kHz
(`convert_audio_format` lets the caller override the sample rate and format,
and defaults to 16 kHz wav; `convert_to_audio_activity` hardcodes mono
16 kHz); the batch script `convertTo16KHz.py` resamples to 16 kHz but passes
no channel flag, so it preserves the input's channel count instead of
normalizing to mono. -/
theorem converters_mono_16khz (sample_rate : Nat) (fmt : String)
    (inputChannels : Nat) :
    (convert_audio_format_args sample_rate).ac = some 1 ∧
    (convert_audio_format_args sample_rate).ar = some sample_rate ∧
    convert_audio_format_default_sample_rate = 16000 ∧
    (convert_to_audio_activity_args fmt).ac = some 1 ∧
    (convert_to_audio_activity_args fmt).ar = some 16000 ∧
    ("-ar" ∈ convert_files_cmd "ep1.m4a" "ep1.wav" ∧
      "16000" ∈ convert_files_cmd "ep1.m4a" "ep1.wav") ∧
    ffmpegOutputChannels (cmdAc (convert_files_cmd "ep1.m4a" "ep1.wav"))
      inputChannels = inputChannels := by
  exact ⟨rfl, rfl, rfl, rfl, rfl, by decide, rfl⟩

/-- C8: the Cleanup activity attempts every listed path exactly once, in
order, whatever the filesystem contents and whichever deletions raise; a
failed deletion is swallowed (the activity is total, it returns rather than
raising) and does not prevent later paths from being attempted. -/
theorem cleanup_attempts_every_path (fsys : List String)
    (deleteFails : String → Bool) (paths : List String) :
    ((cleanup_temp_files fsys deleteFails paths).2).map Prod.fst = paths := by
  induction paths generalizing fsys with
  | nil => rfl
  | cons p rest ih => simp [cleanup_temp_files, ih]

/-- C9: when the converted output path differs from the input path, a
successful `convert_audio_format` removes the original input file from the
filesystem and returns the converted path; on an ffmpeg failure the
filesystem is untouched (the original remains) and the error payload carries
the original input path. -/
theorem convert_success_removes_original (fsys : List String)
    (input_path output_format : String) (sample_rate : Nat) (e : String)
    (hne : convertedOutputPath input_path output_format ≠ input_path) :
    (input_path ∉
        (convert_audio_format_fs fsys none input_path output_format sample_rate).1 ∧
      (convert_audio_format_fs fsys none input_path output_format sample_rate).2 =
        .ok (convertedOutputPath input_path output_format) output_format
          sample_rate) ∧
    ((convert_audio_format_fs fsys (some e) input_path output_format
        sample_rate).1 = fsys ∧
      (convert_audio_format_fs fsys (some e) input_path output_format
        sample_rate).2 = .err e input_path) := by
  refine ⟨⟨?_, rfl⟩, rfl, rfl⟩
  intro hmem
  have hbne : (convertedOutputPath input_path output_format != input_path) = true :=
    bne_iff_ne.mpr hne
  simp only [convert_audio_format_fs, hbne, if_true] at hmem
  rcases List.mem_filter.mp hmem with ⟨-, hself⟩
  simp at hself

/-- Witness for C9: converting `/tmp/v2t-downloads/abc.wav` succeeds,
removing the original; the failure branch leaves the filesystem unchanged. -/
theorem convert_success_removes_original_witness :
    "/tmp/v2t-downloads/abc.wav" ∉
        (convert_audio_format_fs ["/tmp/v2t-downloads/abc.wav"] none
          "/tmp/v2t-downloads/abc.wav" "wav" 16000).1 ∧
      (convert_audio_format_fs ["/tmp/v2t-downloads/abc.wav"] (some "boom")
        "/tmp/v2t-downloads/abc.wav" "wav" 16000).1 =
        ["/tmp/v2t-downloads/abc.wav"] :=
  ⟨(convert_success_removes_original ["/tmp/v2t-downloads/abc.wav"]
      "/tmp/v2t-downloads/abc.wav" "wav" 16000 "boom" (by decide)).1.1,
    (convert_success_removes_original ["/tmp/v2t-downloads/abc.wav"]
      "/tmp/v2t-downloads/abc.wav" "wav" 16000 "boom" (by decide)).2.1⟩

/-- C10: the transcription activity maps the language string "auto" to `None`
for the speech model (automatic language detection), and forwards any other
language string to the model unchanged. -/
theorem transcribe_language_arg (l : String) (h : l ≠ "auto") :
    faster_whisper_language_arg "auto" = none ∧
    faster_whisper_language_arg l = some l := by
  exact ⟨rfl, by simp [faster_whisper_language_arg, h]⟩

/-- Witness for C10: "auto" selects detection, "en" is forwarded unchanged. -/
theorem transcribe_language_arg_witness :
    faster_whisper_language_arg "auto" = none ∧
    faster_whisper_language_arg "en" = some "en" :=
  transcribe_language_arg "en" (by decide)

/-- C1 counterexample: in `worker.py`'s `TranscriptionETLWorkflow`, on a run
where Download and Convert succeed and Transcribe fails terminally, the
coordinator removes nothing — Cleanup is not invoked on the Download and
Convert artifacts (there is no compensation path in that workflow at all),
contradicting the claim. -/
theorem transcribe_failure_no_cleanup_cex :
    oracleC1.download =
      .ok ⟨"/tmp/v2t-downloads/abc.wav", "title", 100, "chan"⟩ ∧
    oracleC1.convert = .ok "/tmp/v2t-downloads/abc_converted.wav" "wav" 16000 ∧
    oracleC1.transcribe = .raised "model crashed" ∧
    (runWorker "wf-1" reqYtC1 oracleC1).result = .exception "model crashed" ∧
    (runWorker "wf-1" reqYtC1 oracleC1).artifacts =
      [(Step.download, "/tmp/v2t-downloads/abc.wav"),
       (Step.convert, "/tmp/v2t-downloads/abc_converted.wav")] ∧
    (runWorker "wf-1" reqYtC1 oracleC1).cleaned = [] :=
  ⟨rfl, rfl, rfl, rfl, rfl, rfl⟩

/-- C1 amended: in `simple_worker.py`'s `TranscriptionETLWorkflow` the claim
holds — any step's terminal failure triggers exactly one Cleanup invocation
over exactly the artifacts recorded so far (none after a Download failure, so
Cleanup is skipped; the downloaded file after a Convert failure; the
downloaded and converted files after a Transcribe or Upload failure), and the
propagated failure carries the failing step. -/
theorem simple_etl_compensation (o : SOracle) :
    (∀ d, o.download = .raised d →
      (runSimpleETL o).cleanupCalls = [] ∧
      (runSimpleETL o).result = .failed .download d) ∧
    (∀ vid title fpath dur d,
      o.download = .ok vid title fpath dur → o.convert = .raised d →
      (runSimpleETL o).cleanupCalls = [[fpath]] ∧
      (runSimpleETL o).result = .failed .convert d) ∧
    (∀ vid title fpath dur apath sz d,
      o.download = .ok vid title fpath dur → o.convert = .ok apath sz →
      o.transcribe = .raised d →
      (runSimpleETL o).cleanupCalls = [[fpath, apath]] ∧
      (runSimpleETL o).result = .failed .transcribe d) ∧
    (∀ vid title fpath dur apath sz txt lang prov tdur d,
      o.download = .ok vid title fpath dur → o.convert = .ok apath sz →
      o.transcribe = .ok txt lang prov tdur → o.upload = .raised d →
      (runSimpleETL o).cleanupCalls = [[fpath, apath]] ∧
      (runSimpleETL o).result = .failed .upload d) := by
  refine ⟨?_, ?_, ?_, ?_⟩ <;> intros <;> simp_all [runSimpleETL]

/-- Witness for C1 amended: the Transcribe-failure run cleans exactly the
downloaded and converted files and fails at Transcribe. -/
theorem simple_etl_compensation_witness :
    (runSimpleETL soracleTranscribeFail).cleanupCalls =
      [["/tmp/v2t-download-x/vid.mp4", "/tmp/v2t-download-x/vid.wav"]] ∧
    (runSimpleETL soracleTranscribeFail).result =
      .failed .transcribe "model crashed" :=
  (simple_etl_compensation soracleTranscribeFail).2.2.1 "abc" "Title"
    "/tmp/v2t-download-x/vid.mp4" 100 "/tmp/v2t-download-x/vid.wav" 5
    "model crashed" rfl rfl rfl

/-- C2 counterexample: in `worker.py`, on a run whose Convert step returns an
error dict (it does not report Success), the Transcribe step is still
invoked — with the original, unconverted path — contradicting the claim. -/
theorem convert_error_transcribe_invoked_cex :
    oracleConvertErr.convert = .err "ffmpeg failed" "/data/a.mp4" ∧
    Step.transcribe ∈ (runWorker "wf-2" reqLocalC2 oracleConvertErr).invoked ∧
    (runWorker "wf-2" reqLocalC2 oracleConvertErr).transcribeInput =
      some "/data/a.mp4" :=
  ⟨rfl, by decide, rfl⟩

/-- C2 amended: the business steps always run in the fixed pipeline order
(the invocation list is an ordered sublist of Download, Convert, Transcribe,
Upload); a Download failure of any kind prevents all later steps (only
Download is invoked); but a Convert error does not gate Transcribe: whenever
the run gets past the download stage and Convert returns an error dict,
Transcribe is still invoked, receiving the pre-conversion file path. -/
theorem convert_error_does_not_gate_transcribe (wid : String) (req : Request)
    (o : Oracle) :
    List.Sublist (runWorker wid req o).invoked
      [Step.download, Step.convert, Step.transcribe, Step.upload] ∧
    (∀ k dd, isYoutubeUrl req.source_url = true → o.download = .err k dd →
      (runWorker wid req o).invoked = [Step.download]) ∧
    (∀ d p, downloadOk req o = true → o.convert = .err d p →
      Step.transcribe ∈ (runWorker wid req o).invoked ∧
      (runWorker wid req o).transcribeInput = some (preConvertPath req o)) := by
  refine ⟨runWorker_invoked_ordered wid req o, ?_, ?_⟩
  · intro k dd hy hdl
    unfold runWorker
    rw [if_pos hy, hdl]
  · intro d p hd hc
    unfold downloadOk at hd
    unfold runWorker preConvertPath
    by_cases hy : isYoutubeUrl req.source_url
    · rw [if_pos hy] at hd
      simp only [hy, if_true]
      cases hdl : o.download with
      | err k dd =>
        rw [hdl] at hd
        exact absurd hd (by simp)
      | ok pp =>
        simp only [hdl]
        unfold workerStage2
        rw [hc]
        cases ht : o.transcribe <;> simp [workerStage3, ht]
    · simp only [hy, Bool.false_eq_true, if_false]
      unfold workerStage2
      rw [hc]
      cases ht : o.transcribe <;> simp [workerStage3, ht]

/-- A YouTube request whose download fails with a non-SourceUnavailable kind,
for the download-gating clause of the C2 witness. -/
def reqYtC2 : Request := ⟨"https://youtube.com/watch?v=x", none, "large-v3"⟩

/-- Oracle for `reqYtC2`: Download fails with kind Timeout. -/
def oracleDownloadTimeout : Oracle :=
  ⟨.err .timeout "timed out",
   .ok "unused.wav" "wav" 16000, .raised "unused", .err "unused"⟩

/-- Witness for C2 amended: a YouTube run whose download fails with Timeout
invokes only Download; and on the local-file run whose Convert errors,
Transcribe is invoked with the original path. -/
theorem convert_error_does_not_gate_transcribe_witness :
    (runWorker "wf-2b" reqYtC2 oracleDownloadTimeout).invoked =
      [Step.download] ∧
    Step.transcribe ∈ (runWorker "wf-2" reqLocalC2 oracleConvertErr).invoked ∧
    (runWorker "wf-2" reqLocalC2 oracleConvertErr).transcribeInput =
      some (preConvertPath reqLocalC2 oracleConvertErr) :=
  ⟨(convert_error_does_not_gate_transcribe "wf-2b" reqYtC2
      oracleDownloadTimeout).2.1 .timeout "timed out" (by decide) rfl,
    ((convert_error_does_not_gate_transcribe "wf-2" reqLocalC2
        oracleConvertErr).2.2 "ffmpeg failed" "/data/a.mp4" (by decide) rfl).1,
    ((convert_error_does_not_gate_transcribe "wf-2" reqLocalC2
        oracleConvertErr).2.2 "ffmpeg failed" "/data/a.mp4" (by decide) rfl).2⟩

/-- C5: when the source is a YouTube url and the Download step fails with
kind SourceUnavailable, the `worker.py` coordinator invokes none of
Convert/Transcribe/Upload, records no artifact, cleans nothing, and returns
the Download step's failure dict verbatim (so the failing step is Download
and the kind is SourceUnavailable). -/
theorem download_failure_halts (wid : String) (req : Request) (o : Oracle)
    (d : String) (hy : isYoutubeUrl req.source_url = true)
    (hd : o.download = .err .sourceUnavailable d) :
    runWorker wid req o =
      { invoked := [.download], artifacts := [], cleaned := [],
        transcribeInput := none,
        result := .downloadError .sourceUnavailable d } := by
  unfold runWorker
  rw [if_pos hy, hd]

/-- Witness for C5: a concrete YouTube run whose download returns
SourceUnavailable stops at Download with an empty artifact list. -/
theorem download_failure_halts_witness :
    runWorker "wf-3" reqYtC5 oracleDownloadFail =
      { invoked := [.download], artifacts := [], cleaned := [],
        transcribeInput := none,
        result := .downloadError .sourceUnavailable "HTTP Error 404" } :=
  download_failure_halts "wf-3" reqYtC5 oracleDownloadFail "HTTP Error 404"
    (by decide) rfl

/-- C6: the `worker.py` coordinator is a pure function of the request and the
activity outcome sequence (its embedding takes no clock input), so two runs
with identical requests and identical outcomes produce identical results; and
on a completed run, the result's duration and language are exactly the
transcription payload's and its url is exactly the upload outcome's — the
coordinator samples no values of its own. -/
theorem coordinator_deterministic (wid : String) (r₁ r₂ : Request)
    (o₁ o₂ : Oracle) (hr : r₁ = r₂) (ho : o₁ = o₂) :
    runWorker wid r₁ o₁ = runWorker wid r₂ o₂ ∧
    ∀ url? dur lang,
      (runWorker wid r₁ o₁).result = .completed wid url? dur lang →
      (∃ q, o₁.transcribe = .ok q ∧ dur = q.duration ∧ lang = q.language) ∧
      url? = uploadUrl o₁.upload := by
  subst hr; subst ho
  refine ⟨rfl, ?_⟩
  intro url? dur lang h
  unfold runWorker at h
  by_cases hy : isYoutubeUrl r₁.source_url
  · rw [if_pos hy] at h
    cases hdl : o₁.download with
    | err k dd =>
      rw [hdl] at h
      exact absurd h (by simp)
    | ok pp =>
      rw [hdl] at h
      exact workerStage2_completed wid o₁ _ _ _ _ _ _ h
  · rw [if_neg hy] at h
    exact workerStage2_completed wid o₁ _ _ _ _ _ _ h

/-- Witness for C6: on the all-success local run, the result's duration 12
and language "en" are the transcription payload's, and the url is the upload
outcome's. -/
theorem coordinator_deterministic_witness :
    (∃ q, oracleAllOk.transcribe = .ok q ∧ (12 : Int) = q.duration ∧
      "en" = q.language) ∧
    (some "minio://v2t-transcriptions/results/wf-4/transcription.json" :
      Option String) = uploadUrl oracleAllOk.upload :=
  (coordinator_deterministic "wf-4" reqLocalC6 reqLocalC6 oracleAllOk oracleAllOk
      rfl rfl).2
    (some "minio://v2t-transcriptions/results/wf-4/transcription.json") 12 "en"
    (by decide)

end V2T
